import Mathlib

/-!
Verification of the per-item sniping engine of `marketplace-bot`
(`marketplace-bot.py`, `MarketAPI.py`), as a shallow embedding.

External effects (HTTP fetches, POSTs, the wall clock) are passed in as
explicit values or response streams; Python exceptions escaping a function
are modelled by `Except.error`, and Python functions that catch an
exception and return an error pair are modelled by total functions
returning that pair.  Prices are Python ints, modelled as `Int`; wall-clock
times and rates are modelled as `ℚ` (the reporter logic only compares,
subtracts and divides them).
-/

namespace MarketBot

/-- A successful result of `MarketAPI.getMarketItemInfo`: the dict
`{"bestPrice": int, "sellerId": str, "productId": str, "userAssetId": str}`. -/
structure Quote where
  bestPrice : Int
  sellerId : String
  productId : String
  userAssetId : String
  deriving Repr, DecidableEq

/-- The argument tuple of a call to `MarketAPI.purchaseItem`:
`(productId, price, sellerId, userAssetId)`. -/
structure PurchaseArgs where
  productId : String
  price : Int
  sellerId : String
  userAssetId : String
  deriving Repr, DecidableEq

/-- The JSON body of a purchase response, as consumed by
`ItemSnipe.checkAndSnipe`: `transactionVerb` is `some v` when the parsed
JSON is a dict whose `'TransactionVerb'` key holds string `v`, and `none`
when the key is missing or its value is not a string (the code paths for
"other value" and "missing key" produce the identical message, so folding
non-`'bought'` shapes into these two cases is faithful).  `rendered` is
`str(purchaseData)`. -/
structure PurchaseData where
  transactionVerb : Option String
  rendered : String
  deriving Repr, DecidableEq

/-- A `requests.Response` as consumed by `checkAndSnipe` after a purchase:
`jsonData = none` models `ret.json()` raising (non-JSON body), `some d`
models a successful parse.  `rendered` is `str(ret)`. -/
structure PResponse where
  jsonData : Option PurchaseData
  rendered : String
  deriving Repr, DecidableEq

/-- `ItemSnipe.checkAndSnipe` (marketplace-bot.py lines 93-149).

Inputs: `maxPrice`/`minPrice` are the worker's attributes; `fetch` is the
result of `self.botClient.getMarketItemInfo(self.item_id)` (`.error msg`
for `(False, msg)`, `.ok info` for `(True, info)`); `purchase args` is the
result of `self.botClient.purchaseItem(args)` for the arguments actually
passed.

Output: the `(message, statusCode)` pair the Python method returns, paired
with the list of purchase calls issued during the cycle (instrumentation:
the Python code issues exactly the calls recorded here, in order). -/
def checkAndSnipe (maxPrice minPrice : Int) (fetch : Except String Quote)
    (purchase : PurchaseArgs → Except String PResponse) :
    (String × String) × List PurchaseArgs :=
  match fetch with
  | .error info =>
      (("Unexpected error when fetching item info: " ++ info, "ERROR"), [])
  | .ok info =>
      if info.bestPrice ≤ maxPrice ∧ info.bestPrice > 0 then
        if info.bestPrice < minPrice then
          (("PRICE BELOW THRESHOLD! (price was " ++ toString info.bestPrice ++ ")",
            "WAIT"), [])
        else
          let message := "Item found for " ++ toString info.bestPrice
          let args : PurchaseArgs :=
            ⟨info.productId, info.bestPrice, info.sellerId, info.userAssetId⟩
          match purchase args with
          | .error ret => ((message ++ ret, "ERROR"), [args])
          | .ok ret =>
              match ret.jsonData with
              | none =>
                  ((message ++ " No JSON response: " ++ ret.rendered, "ERROR"), [args])
              | some purchaseData =>
                  if purchaseData.transactionVerb = some "bought" then
                    ((message ++ "\nPurchased!", "PURCHASED"), [args])
                  else
                    ((message ++ "\nUnable to purchase. Log: " ++ purchaseData.rendered,
                      "ERROR"), [args])
      else
        (("Best price is: " ++ toString info.bestPrice, "WAIT"), [])

/-- The server-side behavior of one attempt of the purchase POST in
`MarketAPI.purchaseItem`: the POST raises a transport exception
(`raises`), or the response carries an `"X-CSRF-TOKEN"` header with value
`tok` (`withToken tok` — the token-refresh signal), or it is a normal
response without that header (`plain r`). -/
inductive PurchaseAttemptResp where
  | raises
  | withToken (tok : String)
  | plain (r : PResponse)
  deriving Repr, DecidableEq

/-- One issued purchase POST: the argument tuple and the `X-CSRF-TOKEN`
header value it carried. -/
structure IssuedCall where
  args : PurchaseArgs
  token : String
  deriving Repr, DecidableEq

/-- What `MarketAPI.purchaseItem` does overall, seen from its caller:
either an exception escapes it (`uncaught` — note that when the POST raises,
the `except` block evaluates `format(req)` with `req` unassigned, so an
`UnboundLocalError` escapes and the `(False, msg)` return is unreachable),
or it returns `(True, req)` (`okResp`). -/
inductive PurchaseResult where
  | uncaught (e : String)
  | okResp (r : PResponse)
  deriving Repr, DecidableEq

/-- `MarketAPI.purchaseItem` (MarketAPI.py lines 182-222), instrumented.

`token` is the current `self.xsrf_token`; `resps` is the stream of
server behaviors for the successive POSTs (one consumed per POST; the
claims only instantiate it with streams long enough to cover every POST
made).  Returns the list of POSTs issued in order, the final cached
`self.xsrf_token`, and the result.  On a token-refresh signal the code
updates `self.xsrf_token` and recurses with the same four arguments —
with no retry cap. -/
def purchaseItemRun (args : PurchaseArgs) (token : String) :
    List PurchaseAttemptResp → List IssuedCall × String × PurchaseResult
  | [] => ([], token, .uncaught "no response")
  | resp :: rest =>
      match resp with
      | .raises =>
          ([⟨args, token⟩], token,
            .uncaught "UnboundLocalError: local variable referenced before assignment")
      | .withToken tok =>
          let (calls, tok', res) := purchaseItemRun args tok rest
          (⟨args, token⟩ :: calls, tok', res)
      | .plain r => ([⟨args, token⟩], token, .okResp r)

/-- The argument tuple of a call to `MarketAPI.sellItem`:
`(itemId, userAssetId, price)` (the price is passed through as a string
into the toggle-sale URL). -/
structure SellArgs where
  itemId : String
  userAssetId : String
  price : String
  deriving Repr, DecidableEq

/-- One issued toggle-sale POST: the argument tuple and the
`X-CSRF-TOKEN` header value it carried. -/
structure IssuedSellCall where
  args : SellArgs
  token : String
  deriving Repr, DecidableEq

/-- `MarketAPI.sellItem` (MarketAPI.py lines 262-300), instrumented the
same way as `purchaseItemRun`.  The server behaviors of the successive
toggle-sale POSTs have the same three shapes as for the purchase POST,
so `PurchaseAttemptResp` and `PurchaseResult` are reused.  The code is
the same token-refresh protocol as `purchaseItem`: when the response
carries an `"X-CSRF-TOKEN"` header it updates `self.xsrf_token` and
recurses with the same three arguments, with no retry cap (and when the
POST raises, the `except` block evaluates `format(req)` with `req`
unassigned, so an `UnboundLocalError` escapes here too). -/
def sellItemRun (args : SellArgs) (token : String) :
    List PurchaseAttemptResp → List IssuedSellCall × String × PurchaseResult
  | [] => ([], token, .uncaught "no response")
  | resp :: rest =>
      match resp with
      | .raises =>
          ([⟨args, token⟩], token,
            .uncaught "UnboundLocalError: local variable referenced before assignment")
      | .withToken tok =>
          let (calls, tok', res) := sellItemRun args tok rest
          (⟨args, token⟩ :: calls, tok', res)
      | .plain r => ([⟨args, token⟩], token, .okResp r)

/-- A `MarketAPI` session as far as the worker's state machine observes it:
the account cookie installed by `changeCookie` and the cached
`xsrf_token`. -/
structure Session where
  cookie : String
  xsrfToken : String
  deriving Repr, DecidableEq

/-- `ItemSnipe.restartSession` (marketplace-bot.py lines 152-161): build a
fresh `MarketAPI`, `startSessionNoLogin` (which sets `xsrf_token = ""`),
then `changeCookie(self.cookie)` with the same stored cookie. -/
def restartSession (cookie : String) : Session :=
  { cookie := cookie, xsrfToken := "" }

/-- The worker-owned counters of `ItemSnipe.run`: `checks`, `sniped`, and
`last_update` (a wall-clock time in seconds). -/
structure WorkerState where
  checks : Nat
  sniped : Nat
  lastUpdate : ℚ
  deriving Repr, DecidableEq

/-- The state set up by `ItemSnipe.run` lines 175-177 just before the main
loop: `last_update = time.time() - log_interval` (where `t0` is that
`time.time()` reading), `checks = 0`, `sniped = 0`. -/
def initState (t0 logInterval : ℚ) : WorkerState :=
  { checks := 0, sniped := 0, lastUpdate := t0 - logInterval }

/-- The throttled report text of marketplace-bot.py lines 193-195. -/
def reportMessage (itemName message : String) (sniped : Nat) (rate : ℚ) : String :=
  "Sniping " ++ itemName ++ ". " ++ message ++ ". " ++ toString sniped ++
    " sniped so far. Average rate = " ++ toString rate ++ " per second."

/-- The `"WAIT"` branch of the main loop (marketplace-bot.py lines
190-196): if `abs(time.time() - self.last_update) >= self.log_interval`,
compute `checks_per_second = float(self.checks) / abs(time.time() -
self.last_update)`, zero `self.checks`, emit the throttled report, and set
`self.last_update = time.time()`; otherwise do nothing.  The three
`time.time()` readings inside the branch are modelled as the single
instant `now`.  Returns the updated state and the emitted messages. -/
def reportTick (itemName : String) (logInterval : ℚ) (now : ℚ)
    (message : String) (s : WorkerState) : WorkerState × List String :=
  if |now - s.lastUpdate| ≥ logInterval then
    let rate : ℚ := (s.checks : ℚ) / |now - s.lastUpdate|
    ({ s with checks := 0, lastUpdate := now },
      [reportMessage itemName message s.sniped rate])
  else
    (s, [])

/-- An observable side effect of one iteration of the worker loop. -/
inductive Action where
  | restart
  | notify (message : String)
  deriving Repr, DecidableEq

/-- One iteration of the body of `ItemSnipe.run`'s main loop after
`checkAndSnipe` returned `(message, status)` (marketplace-bot.py lines
183-198): dispatch on the status, then `self.checks += 1`.  `now` models
the `time.time()` readings of this iteration.  Returns the updated
counters and the side effects in order (`restart` for
`self.restartSession()`, `notify m` for `self.sendToDiscord(m)`). -/
def runStep (itemName : String) (logInterval : ℚ) (now : ℚ)
    (message status : String) (s : WorkerState) : WorkerState × List Action :=
  let (s', acts) :=
    if status = "ERROR" then
      (s, [Action.restart,
           Action.notify ("ERROR " ++ message ++ " (while sniping " ++ itemName ++ ")")])
    else if status = "PURCHASED" then
      ({ s with sniped := s.sniped + 1 },
        [Action.notify ("@here " ++ message ++ "(while sniping " ++ itemName ++ ")")])
    else if status = "WAIT" then
      let (s'', msgs) := reportTick itemName logInterval now message s
      (s'', msgs.map Action.notify)
    else
      (s, [])
  ({ s' with checks := s'.checks + 1 }, acts)

/-- Python's `range(0, stop, step)` for `step > 0`, as a list. -/
def pyRangeStep (stop step : Nat) : List Nat :=
  (List.range ((stop + step - 1) / step)).map (fun i => i * step)

/-- The fan-out partition computed by `main` (marketplace-bot.py lines
285-297): `num_processes` is `len(items)` when `config["max_processes"]`
is truthy, else `config["processes"]`; `process_size = len(items) //
num_processes`; the chunk list is `[items[x:x+process_size] for x in
range(0, len(items), process_size)]`.  `none` models a crash before any
process starts: `ZeroDivisionError` when `num_processes` is `0`, and
`ValueError` from `range(..., 0)` when `process_size` is `0`. -/
def mainChunks {α : Type} (items : List α) (maxProcesses : Bool)
    (processes : Nat) : Option (List (List α)) :=
  let numProcesses := if maxProcesses then items.length else processes
  if numProcesses = 0 then none
  else
    let size := items.length / numProcesses
    if size = 0 then none
    else some ((pyRangeStep items.length size).map
      (fun x => ((items.drop x).take size)))

/-!
Branch-evaluation lemmas for `checkAndSnipe`: one per return path of the
Python method.
-/

theorem checkAndSnipe_fetch_error (maxPrice minPrice : Int) (e : String)
    (purchase : PurchaseArgs → Except String PResponse) :
    checkAndSnipe maxPrice minPrice (Except.error e) purchase =
      (("Unexpected error when fetching item info: " ++ e, "ERROR"), []) := rfl

theorem checkAndSnipe_out_of_range (maxPrice minPrice : Int) (q : Quote)
    (purchase : PurchaseArgs → Except String PResponse)
    (h : ¬(q.bestPrice ≤ maxPrice ∧ q.bestPrice > 0)) :
    checkAndSnipe maxPrice minPrice (Except.ok q) purchase =
      (("Best price is: " ++ toString q.bestPrice, "WAIT"), []) := by
  unfold checkAndSnipe
  dsimp only
  rw [if_neg h]

theorem checkAndSnipe_below_threshold (maxPrice minPrice : Int) (q : Quote)
    (purchase : PurchaseArgs → Except String PResponse)
    (h : q.bestPrice ≤ maxPrice ∧ q.bestPrice > 0) (hb : q.bestPrice < minPrice) :
    checkAndSnipe maxPrice minPrice (Except.ok q) purchase =
      (("PRICE BELOW THRESHOLD! (price was " ++ toString q.bestPrice ++ ")", "WAIT"),
        []) := by
  unfold checkAndSnipe
  dsimp only
  rw [if_pos h, if_pos hb]

theorem checkAndSnipe_purchase_error (maxPrice minPrice : Int) (q : Quote)
    (purchase : PurchaseArgs → Except String PResponse)
    (h : q.bestPrice ≤ maxPrice ∧ q.bestPrice > 0) (hb : ¬q.bestPrice < minPrice)
    (r : String)
    (hp : purchase ⟨q.productId, q.bestPrice, q.sellerId, q.userAssetId⟩ =
      Except.error r) :
    checkAndSnipe maxPrice minPrice (Except.ok q) purchase =
      (("Item found for " ++ toString q.bestPrice ++ r, "ERROR"),
        [⟨q.productId, q.bestPrice, q.sellerId, q.userAssetId⟩]) := by
  unfold checkAndSnipe
  dsimp only
  rw [if_pos h, if_neg hb]
  simp only [hp]

theorem checkAndSnipe_no_json (maxPrice minPrice : Int) (q : Quote)
    (purchase : PurchaseArgs → Except String PResponse)
    (h : q.bestPrice ≤ maxPrice ∧ q.bestPrice > 0) (hb : ¬q.bestPrice < minPrice)
    (r : PResponse)
    (hp : purchase ⟨q.productId, q.bestPrice, q.sellerId, q.userAssetId⟩ =
      Except.ok r)
    (hj : r.jsonData = none) :
    checkAndSnipe maxPrice minPrice (Except.ok q) purchase =
      (("Item found for " ++ toString q.bestPrice ++ " No JSON response: " ++
          r.rendered, "ERROR"),
        [⟨q.productId, q.bestPrice, q.sellerId, q.userAssetId⟩]) := by
  unfold checkAndSnipe
  dsimp only
  rw [if_pos h, if_neg hb]
  simp only [hp, hj]

theorem checkAndSnipe_bought (maxPrice minPrice : Int) (q : Quote)
    (purchase : PurchaseArgs → Except String PResponse)
    (h : q.bestPrice ≤ maxPrice ∧ q.bestPrice > 0) (hb : ¬q.bestPrice < minPrice)
    (r : PResponse) (d : PurchaseData)
    (hp : purchase ⟨q.productId, q.bestPrice, q.sellerId, q.userAssetId⟩ =
      Except.ok r)
    (hj : r.jsonData = some d) (hv : d.transactionVerb = some "bought") :
    checkAndSnipe maxPrice minPrice (Except.ok q) purchase =
      (("Item found for " ++ toString q.bestPrice ++ "\nPurchased!", "PURCHASED"),
        [⟨q.productId, q.bestPrice, q.sellerId, q.userAssetId⟩]) := by
  unfold checkAndSnipe
  dsimp only
  rw [if_pos h, if_neg hb]
  simp only [hp, hj, if_pos hv]

theorem checkAndSnipe_not_bought (maxPrice minPrice : Int) (q : Quote)
    (purchase : PurchaseArgs → Except String PResponse)
    (h : q.bestPrice ≤ maxPrice ∧ q.bestPrice > 0) (hb : ¬q.bestPrice < minPrice)
    (r : PResponse) (d : PurchaseData)
    (hp : purchase ⟨q.productId, q.bestPrice, q.sellerId, q.userAssetId⟩ =
      Except.ok r)
    (hj : r.jsonData = some d) (hv : ¬d.transactionVerb = some "bought") :
    checkAndSnipe maxPrice minPrice (Except.ok q) purchase =
      (("Item found for " ++ toString q.bestPrice ++ "\nUnable to purchase. Log: " ++
          d.rendered, "ERROR"),
        [⟨q.productId, q.bestPrice, q.sellerId, q.userAssetId⟩]) := by
  unfold checkAndSnipe
  dsimp only
  rw [if_pos h, if_neg hb]
  simp only [hp, hj]
  rw [if_neg hv]

/-!
Characterization lemmas: the purchase calls issued by a cycle, and the
classification of its status code.
-/

theorem checkAndSnipe_calls_eq (maxPrice minPrice : Int) (q : Quote)
    (purchase : PurchaseArgs → Except String PResponse) :
    (checkAndSnipe maxPrice minPrice (Except.ok q) purchase).2 =
      if minPrice ≤ q.bestPrice ∧ q.bestPrice ≤ maxPrice ∧ 0 < q.bestPrice
      then [⟨q.productId, q.bestPrice, q.sellerId, q.userAssetId⟩] else [] := by
  by_cases h : q.bestPrice ≤ maxPrice ∧ q.bestPrice > 0
  · by_cases hb : q.bestPrice < minPrice
    · rw [checkAndSnipe_below_threshold maxPrice minPrice q purchase h hb,
        if_neg (by omega)]
    · rw [if_pos (by omega)]
      rcases hp : purchase ⟨q.productId, q.bestPrice, q.sellerId, q.userAssetId⟩
        with r | r
      · rw [checkAndSnipe_purchase_error maxPrice minPrice q purchase h hb r hp]
      · rcases hj : r.jsonData with _ | d
        · rw [checkAndSnipe_no_json maxPrice minPrice q purchase h hb r hp hj]
        · by_cases hv : d.transactionVerb = some "bought"
          · rw [checkAndSnipe_bought maxPrice minPrice q purchase h hb r d hp hj hv]
          · rw [checkAndSnipe_not_bought maxPrice minPrice q purchase h hb r d hp hj hv]
  · rw [checkAndSnipe_out_of_range maxPrice minPrice q purchase h, if_neg (by omega)]

theorem checkAndSnipe_status_cases (maxPrice minPrice : Int)
    (fetch : Except String Quote)
    (purchase : PurchaseArgs → Except String PResponse) :
    (checkAndSnipe maxPrice minPrice fetch purchase).1.2 = "ERROR" ∨
    (checkAndSnipe maxPrice minPrice fetch purchase).1.2 = "PURCHASED" ∨
    (checkAndSnipe maxPrice minPrice fetch purchase).1.2 = "WAIT" := by
  rcases fetch with e | q
  · rw [checkAndSnipe_fetch_error]
    exact Or.inl rfl
  · by_cases h : q.bestPrice ≤ maxPrice ∧ q.bestPrice > 0
    · by_cases hb : q.bestPrice < minPrice
      · rw [checkAndSnipe_below_threshold maxPrice minPrice q purchase h hb]
        exact Or.inr (Or.inr rfl)
      · rcases hp : purchase ⟨q.productId, q.bestPrice, q.sellerId, q.userAssetId⟩
          with r | r
        · rw [checkAndSnipe_purchase_error maxPrice minPrice q purchase h hb r hp]
          exact Or.inl rfl
        · rcases hj : r.jsonData with _ | d
          · rw [checkAndSnipe_no_json maxPrice minPrice q purchase h hb r hp hj]
            exact Or.inl rfl
          · by_cases hv : d.transactionVerb = some "bought"
            · rw [checkAndSnipe_bought maxPrice minPrice q purchase h hb r d hp hj hv]
              exact Or.inr (Or.inl rfl)
            · rw [checkAndSnipe_not_bought maxPrice minPrice q purchase h hb r d hp hj hv]
              exact Or.inl rfl
    · rw [checkAndSnipe_out_of_range maxPrice minPrice q purchase h]
      exact Or.inr (Or.inr rfl)

theorem checkAndSnipe_purchased_iff (maxPrice minPrice : Int)
    (fetch : Except String Quote)
    (purchase : PurchaseArgs → Except String PResponse) :
    (checkAndSnipe maxPrice minPrice fetch purchase).1.2 = "PURCHASED" ↔
      ∃ q r d, fetch = Except.ok q ∧
        (minPrice ≤ q.bestPrice ∧ q.bestPrice ≤ maxPrice ∧ 0 < q.bestPrice) ∧
        purchase ⟨q.productId, q.bestPrice, q.sellerId, q.userAssetId⟩ =
          Except.ok r ∧
        r.jsonData = some d ∧ d.transactionVerb = some "bought" := by
  rcases fetch with e | q
  · rw [checkAndSnipe_fetch_error]
    constructor
    · intro hEq; simp at hEq
    · rintro ⟨q, r, d, hq, -⟩; exact absurd hq (by simp)
  · by_cases h : q.bestPrice ≤ maxPrice ∧ q.bestPrice > 0
    · by_cases hb : q.bestPrice < minPrice
      · rw [checkAndSnipe_below_threshold maxPrice minPrice q purchase h hb]
        constructor
        · intro hEq; simp at hEq
        · rintro ⟨q', r', d', hq, hrange, -⟩
          simp only [Except.ok.injEq] at hq
          subst hq
          omega
      · rcases hp : purchase ⟨q.productId, q.bestPrice, q.sellerId, q.userAssetId⟩
          with r | r
        · rw [checkAndSnipe_purchase_error maxPrice minPrice q purchase h hb r hp]
          constructor
          · intro hEq; simp at hEq
          · rintro ⟨q', r', d', hq, hrange, hp', -⟩
            simp only [Except.ok.injEq] at hq
            subst hq
            rw [hp] at hp'
            exact absurd hp' (by simp)
        · rcases hj : r.jsonData with _ | d
          · rw [checkAndSnipe_no_json maxPrice minPrice q purchase h hb r hp hj]
            constructor
            · intro hEq; simp at hEq
            · rintro ⟨q', r', d', hq, hrange, hp', hj', -⟩
              simp only [Except.ok.injEq] at hq
              subst hq
              rw [hp] at hp'
              simp only [Except.ok.injEq] at hp'
              subst hp'
              rw [hj] at hj'
              exact absurd hj' (by simp)
          · by_cases hv : d.transactionVerb = some "bought"
            · rw [checkAndSnipe_bought maxPrice minPrice q purchase h hb r d hp hj hv]
              constructor
              · intro _
                exact ⟨q, r, d, rfl, by omega, hp, hj, hv⟩
              · intro _; rfl
            · rw [checkAndSnipe_not_bought maxPrice minPrice q purchase h hb r d hp hj hv]
              constructor
              · intro hEq; simp at hEq
              · rintro ⟨q', r', d', hq, hrange, hp', hj', hv'⟩
                simp only [Except.ok.injEq] at hq
                subst hq
                rw [hp] at hp'
                simp only [Except.ok.injEq] at hp'
                subst hp'
                rw [hj] at hj'
                simp only [Option.some.injEq] at hj'
                subst hj'
                exact absurd hv' hv
    · rw [checkAndSnipe_out_of_range maxPrice minPrice q purchase h]
      constructor
      · intro hEq; simp at hEq
      · rintro ⟨q', r', d', hq, hrange, -⟩
        simp only [Except.ok.injEq] at hq
        subst hq
        omega

/-- C1: in one poll cycle (`checkAndSnipe`), at most one purchase call is
issued; given a successfully fetched quote, a purchase call is issued
exactly when `minPrice ≤ bestPrice ≤ maxPrice` and `bestPrice > 0`, and
the call carries the quote's `productId`, `bestPrice`, `sellerId` and
`userAssetId` unchanged. -/
theorem snipe_purchases_once_iff_in_range (maxPrice minPrice : Int)
    (fetch : Except String Quote)
    (purchase : PurchaseArgs → Except String PResponse) :
    (checkAndSnipe maxPrice minPrice fetch purchase).2.length ≤ 1 ∧
    ∀ q, fetch = Except.ok q →
      (checkAndSnipe maxPrice minPrice fetch purchase).2 =
        (if minPrice ≤ q.bestPrice ∧ q.bestPrice ≤ maxPrice ∧ 0 < q.bestPrice
         then [⟨q.productId, q.bestPrice, q.sellerId, q.userAssetId⟩]
         else []) := by
  constructor
  · rcases fetch with e | q
    · rw [checkAndSnipe_fetch_error]
      simp
    · rw [checkAndSnipe_calls_eq]
      split <;> simp
  · rintro q rfl
    exact checkAndSnipe_calls_eq maxPrice minPrice q purchase

/-- Witness for C1 at a concrete in-range quote. -/
theorem snipe_purchases_once_iff_in_range_witness :
    (checkAndSnipe 500 100 (Except.ok ⟨300, "s", "p", "u"⟩)
        (fun _ => Except.ok ⟨some ⟨some "bought", "log"⟩, "resp"⟩)).2 =
      (if (100 : Int) ≤ 300 ∧ (300 : Int) ≤ 500 ∧ (0 : Int) < 300
       then [⟨"p", 300, "s", "u"⟩] else []) :=
  (snipe_purchases_once_iff_in_range 500 100 (Except.ok ⟨300, "s", "p", "u"⟩)
      (fun _ => Except.ok ⟨some ⟨some "bought", "log"⟩, "resp"⟩)).2
    ⟨300, "s", "p", "u"⟩ rfl

/-- C9: every poll cycle returns a status code in
`{"ERROR", "PURCHASED", "WAIT"}`, and it returns `"PURCHASED"` exactly when
a purchase call was made (quote in range), it succeeded, its body parsed
as JSON, and the JSON's `'TransactionVerb'` field is the string
`'bought'`; every other purchase-response shape yields `"ERROR"` (by the
classification, since in-range cycles never return `"WAIT"`). -/
theorem snipe_status_classification (maxPrice minPrice : Int)
    (fetch : Except String Quote)
    (purchase : PurchaseArgs → Except String PResponse) :
    ((checkAndSnipe maxPrice minPrice fetch purchase).1.2 = "ERROR" ∨
     (checkAndSnipe maxPrice minPrice fetch purchase).1.2 = "PURCHASED" ∨
     (checkAndSnipe maxPrice minPrice fetch purchase).1.2 = "WAIT") ∧
    ((checkAndSnipe maxPrice minPrice fetch purchase).1.2 = "PURCHASED" ↔
      ∃ q r d, fetch = Except.ok q ∧
        (minPrice ≤ q.bestPrice ∧ q.bestPrice ≤ maxPrice ∧ 0 < q.bestPrice) ∧
        purchase ⟨q.productId, q.bestPrice, q.sellerId, q.userAssetId⟩ =
          Except.ok r ∧
        r.jsonData = some d ∧ d.transactionVerb = some "bought") ∧
    (∀ q, fetch = Except.ok q →
      minPrice ≤ q.bestPrice → q.bestPrice ≤ maxPrice → 0 < q.bestPrice →
      (checkAndSnipe maxPrice minPrice fetch purchase).1.2 = "PURCHASED" ∨
      (checkAndSnipe maxPrice minPrice fetch purchase).1.2 = "ERROR") := by
  refine ⟨checkAndSnipe_status_cases maxPrice minPrice fetch purchase,
    checkAndSnipe_purchased_iff maxPrice minPrice fetch purchase, ?_⟩
  rintro q rfl h1 h2 h3
  rcases hp : purchase ⟨q.productId, q.bestPrice, q.sellerId, q.userAssetId⟩
    with r | r
  · rw [checkAndSnipe_purchase_error maxPrice minPrice q purchase (by omega)
      (by omega) r hp]
    exact Or.inr rfl
  · rcases hj : r.jsonData with _ | d
    · rw [checkAndSnipe_no_json maxPrice minPrice q purchase (by omega)
        (by omega) r hp hj]
      exact Or.inr rfl
    · by_cases hv : d.transactionVerb = some "bought"
      · rw [checkAndSnipe_bought maxPrice minPrice q purchase (by omega)
          (by omega) r d hp hj hv]
        exact Or.inl rfl
      · rw [checkAndSnipe_not_bought maxPrice minPrice q purchase (by omega)
          (by omega) r d hp hj hv]
        exact Or.inr rfl

/-- Witness for C9: a bought-shaped response at an in-range quote yields
`"PURCHASED"`. -/
theorem snipe_status_classification_witness :
    (checkAndSnipe 500 100 (Except.ok ⟨300, "s", "p", "u"⟩)
        (fun _ => Except.ok ⟨some ⟨some "bought", "log"⟩, "resp"⟩)).1.2 =
      "PURCHASED" :=
  (snipe_status_classification 500 100 (Except.ok ⟨300, "s", "p", "u"⟩)
      (fun _ => Except.ok ⟨some ⟨some "bought", "log"⟩, "resp"⟩)).2.1.mpr
    ⟨⟨300, "s", "p", "u"⟩, ⟨some ⟨some "bought", "log"⟩, "resp"⟩,
      ⟨some "bought", "log"⟩, rfl, by decide, rfl, rfl, rfl⟩

/-- C5 counterexample: at `minPrice = 100`, `maxPrice = 500` and a quote
with `bestPrice = 0 < minPrice`, the code takes the outer else branch, so
the returned message is the generic wait status `"Best price is: 0"`, not
the distinct below-threshold message — contradicting the claim that every
quote with `bestPrice < minPrice` yields a message distinguishable from
the generic wait status. -/
theorem below_min_generic_wait_cex :
    ((0 : Int) < 100) ∧
    checkAndSnipe 500 100 (Except.ok ⟨0, "s", "p", "u"⟩)
        (fun _ => Except.ok ⟨some ⟨some "bought", "log"⟩, "resp"⟩) =
      (("Best price is: 0", "WAIT"), []) ∧
    ("Best price is: 0" ≠ "PRICE BELOW THRESHOLD! (price was 0)") := by
  refine ⟨by decide, rfl, by decide⟩

/-- C5 amended: for every quote with `bestPrice < minPrice` no purchase
call is made; the distinct below-threshold message (which includes
`bestPrice`) is returned exactly when additionally
`0 < bestPrice ≤ maxPrice`, and otherwise the generic wait message is
returned; the two message forms are always distinct. -/
theorem below_min_no_purchase_distinct_message (maxPrice minPrice : Int)
    (q : Quote) (purchase : PurchaseArgs → Except String PResponse)
    (h : q.bestPrice < minPrice) :
    (checkAndSnipe maxPrice minPrice (Except.ok q) purchase).2 = [] ∧
    (0 < q.bestPrice ∧ q.bestPrice ≤ maxPrice →
      (checkAndSnipe maxPrice minPrice (Except.ok q) purchase).1 =
        ("PRICE BELOW THRESHOLD! (price was " ++ toString q.bestPrice ++ ")",
          "WAIT")) ∧
    (¬(0 < q.bestPrice ∧ q.bestPrice ≤ maxPrice) →
      (checkAndSnipe maxPrice minPrice (Except.ok q) purchase).1 =
        ("Best price is: " ++ toString q.bestPrice, "WAIT")) ∧
    ("PRICE BELOW THRESHOLD! (price was " ++ toString q.bestPrice ++ ")" ≠
      "Best price is: " ++ toString q.bestPrice) := by
  refine ⟨?_, ?_, ?_, ?_⟩
  · rw [checkAndSnipe_calls_eq, if_neg (by omega)]
  · intro hin
    rw [checkAndSnipe_below_threshold maxPrice minPrice q purchase
      (by omega) (by omega)]
  · intro hout
    rw [checkAndSnipe_out_of_range maxPrice minPrice q purchase (by omega)]
  · intro hEq
    have hlen := congrArg String.length hEq
    have c1 : ("PRICE BELOW THRESHOLD! (price was " : String).length = 34 := rfl
    have c2 : (")" : String).length = 1 := rfl
    have c3 : ("Best price is: " : String).length = 15 := rfl
    simp only [String.length_append, c1, c2, c3] at hlen
    omega

/-- Witness for C5 amended at the quote of the counterexample
(`bestPrice = 50`, `minPrice = 100`, `maxPrice = 500`, in the inner
below-threshold branch). -/
theorem below_min_no_purchase_distinct_message_witness :
    (checkAndSnipe 500 100 (Except.ok ⟨50, "s", "p", "u"⟩)
        (fun _ => Except.ok ⟨some ⟨some "bought", "log"⟩, "resp"⟩)).2 = [] ∧
    ((0 : Int) < 50 ∧ (50 : Int) ≤ 500 →
      (checkAndSnipe 500 100 (Except.ok ⟨50, "s", "p", "u"⟩)
          (fun _ => Except.ok ⟨some ⟨some "bought", "log"⟩, "resp"⟩)).1 =
        ("PRICE BELOW THRESHOLD! (price was " ++ toString (50 : Int) ++ ")",
          "WAIT")) ∧
    (¬((0 : Int) < 50 ∧ (50 : Int) ≤ 500) →
      (checkAndSnipe 500 100 (Except.ok ⟨50, "s", "p", "u"⟩)
          (fun _ => Except.ok ⟨some ⟨some "bought", "log"⟩, "resp"⟩)).1 =
        ("Best price is: " ++ toString (50 : Int), "WAIT")) ∧
    ("PRICE BELOW THRESHOLD! (price was " ++ toString (50 : Int) ++ ")" ≠
      "Best price is: " ++ toString (50 : Int)) :=
  below_min_no_purchase_distinct_message 500 100 ⟨50, "s", "p", "u"⟩
    (fun _ => Except.ok ⟨some ⟨some "bought", "log"⟩, "resp"⟩) (by decide)

/-- C8: with `minPrice = 100`, `maxPrice = 500` and the quote sequence
`[50, 600, 300]` (purchase responding bought-shaped), the three cycles
return statuses `WAIT` (below-threshold message), `WAIT` (generic
message), `PURCHASED`, and exactly one purchase call is issued in total,
carrying the third quote's parameters. -/
theorem scenario_50_600_300 :
    checkAndSnipe 500 100 (Except.ok ⟨50, "sA", "pA", "uA"⟩)
        (fun _ => Except.ok ⟨some ⟨some "bought", "log"⟩, "resp"⟩) =
      (("PRICE BELOW THRESHOLD! (price was 50)", "WAIT"), []) ∧
    checkAndSnipe 500 100 (Except.ok ⟨600, "sB", "pB", "uB"⟩)
        (fun _ => Except.ok ⟨some ⟨some "bought", "log"⟩, "resp"⟩) =
      (("Best price is: 600", "WAIT"), []) ∧
    checkAndSnipe 500 100 (Except.ok ⟨300, "sC", "pC", "uC"⟩)
        (fun _ => Except.ok ⟨some ⟨some "bought", "log"⟩, "resp"⟩) =
      (("Item found for 300\nPurchased!", "PURCHASED"),
        [⟨"pC", 300, "sC", "uC"⟩]) := by
  refine ⟨rfl, rfl, rfl⟩

/-- C2 counterexample: starting from cached token `"T1"`, a privileged
request whose first response carries refresh token `"T2"` and whose
second response carries refresh token `"T3"` issues a third POST — for
the purchase operation and for the sell operation alike — so the second
refresh signal causes a further retry, contradicting the claim that the
request is retried exactly once and that a second refresh signal on the
retry does not cause further retries. -/
theorem privileged_retry_unbounded_cex :
    (purchaseItemRun ⟨"prod", 300, "seller", "asset"⟩ "T1"
        [PurchaseAttemptResp.withToken "T2", PurchaseAttemptResp.withToken "T3",
          PurchaseAttemptResp.plain ⟨some ⟨some "bought", "log"⟩, "resp"⟩]).1 =
      [⟨⟨"prod", 300, "seller", "asset"⟩, "T1"⟩,
        ⟨⟨"prod", 300, "seller", "asset"⟩, "T2"⟩,
        ⟨⟨"prod", 300, "seller", "asset"⟩, "T3"⟩] ∧
    (sellItemRun ⟨"item", "asset", "250"⟩ "T1"
        [PurchaseAttemptResp.withToken "T2", PurchaseAttemptResp.withToken "T3",
          PurchaseAttemptResp.plain ⟨none, "resp"⟩]).1 =
      [⟨⟨"item", "asset", "250"⟩, "T1"⟩,
        ⟨⟨"item", "asset", "250"⟩, "T2"⟩,
        ⟨⟨"item", "asset", "250"⟩, "T3"⟩] := by decide

/-- C2 amended: for both privileged operations (`purchaseItem` and
`sellItem`), on every token-refresh signal the cached token is updated
and the same logical request (identical parameter tuple) is retried with
the new token, with no bound on the number of retries: `k` consecutive
refresh signals followed by a normal response produce `k + 1` POSTs, all
carrying the same arguments, the first carrying the initial cached token
and each retry carrying the token of the preceding refresh signal; the
final cached token is the last refresh token received. -/
theorem token_refresh_chain_unbounded (toks : List String) (r : PResponse) :
    (∀ (args : PurchaseArgs) (token : String),
      purchaseItemRun args token (toks.map PurchaseAttemptResp.withToken ++
          [PurchaseAttemptResp.plain r]) =
        ((token :: toks).map (fun t => ⟨args, t⟩), toks.getLastD token,
          PurchaseResult.okResp r)) ∧
    (∀ (args : SellArgs) (token : String),
      sellItemRun args token (toks.map PurchaseAttemptResp.withToken ++
          [PurchaseAttemptResp.plain r]) =
        ((token :: toks).map (fun t => ⟨args, t⟩), toks.getLastD token,
          PurchaseResult.okResp r)) := by
  constructor
  · intro args token
    induction toks generalizing token with
    | nil => rfl
    | cons t ts ih =>
        simp only [List.map_cons, List.cons_append, purchaseItemRun,
          List.append_eq, ih, List.getLastD_cons]
  · intro args token
    induction toks generalizing token with
    | nil => rfl
    | cons t ts ih =>
        simp only [List.map_cons, List.cons_append, sellItemRun,
          List.append_eq, ih, List.getLastD_cons]

/-- Iterated reporting: fold `reportTick` over a sequence of
`(now, message)` pairs (one per `"WAIT"` outcome), accumulating the
emitted messages. -/
def reportRun (itemName : String) (logInterval : ℚ) (s : WorkerState)
    (ticks : List (ℚ × String)) : WorkerState × List String :=
  ticks.foldl (fun acc t =>
    let (s', msgs) := reportTick itemName logInterval t.1 t.2 acc.1
    (s', acc.2 ++ msgs)) (s, [])

theorem reportTick_below (itemName : String) (logInterval now : ℚ)
    (message : String) (s : WorkerState)
    (h : |now - s.lastUpdate| < logInterval) :
    reportTick itemName logInterval now message s = (s, []) := by
  unfold reportTick
  rw [if_neg (by exact not_le.mpr h)]

/-- C3: any number of `"WAIT"` reporting ticks all strictly inside the
configured interval emits zero throttled messages (and leaves the
counters untouched); a tick whose elapsed time since `last_update`
reaches the interval emits exactly one throttled message — containing
the item name, the latest status message, the cumulative purchase count
and the rate `checks / elapsed` — and resets `checks` to `0` and
`last_update` to now (the purchase counter `sniped` is cumulative and is
not reset).  `PURCHASED` outcomes never produce a throttled message: they
emit only the immediate purchase notification and leave `last_update`
untouched. -/
theorem reporter_throttled_once_per_interval (itemName message : String)
    (logInterval : ℚ) (s : WorkerState) :
    (∀ ticks : List (ℚ × String),
        (∀ t ∈ ticks, |t.1 - s.lastUpdate| < logInterval) →
        reportRun itemName logInterval s ticks = (s, [])) ∧
    (∀ now, logInterval ≤ |now - s.lastUpdate| →
        reportTick itemName logInterval now message s =
          ({ checks := 0, sniped := s.sniped, lastUpdate := now },
            [reportMessage itemName message s.sniped
              ((s.checks : ℚ) / |now - s.lastUpdate|)])) ∧
    (∀ now s', runStep itemName logInterval now message "PURCHASED" s' =
        ({ s' with checks := s'.checks + 1, sniped := s'.sniped + 1 },
          [Action.notify
            ("@here " ++ message ++ "(while sniping " ++ itemName ++ ")")])) := by
  refine ⟨?_, ?_, fun now s' => rfl⟩
  · intro ticks
    induction ticks with
    | nil => intro _; rfl
    | cons t ts ih =>
        intro hall
        have hts : ∀ t' ∈ ts, |t'.1 - s.lastUpdate| < logInterval :=
          fun t' ht' => hall t' (List.mem_cons_of_mem t ht')
        have hhd := hall t (List.mem_cons_self t ts)
        unfold reportRun at ih ⊢
        rw [List.foldl_cons]
        simp only [reportTick_below itemName logInterval t.1 t.2 s hhd,
          List.append_nil]
        exact ih hts
  · intro now h
    unfold reportTick
    rw [if_pos h]

/-- Witness for C3: two ticks inside a 10-second interval emit nothing;
a tick 12 seconds after `last_update` emits the one throttled report. -/
theorem reporter_throttled_once_per_interval_witness :
    reportRun "item" 10 ⟨5, 2, 0⟩ [(3, "a"), (5, "b")] = (⟨5, 2, 0⟩, []) ∧
    reportTick "item" 10 12 "m" ⟨5, 2, 0⟩ =
      ({ checks := 0, sniped := 2, lastUpdate := 12 },
        [reportMessage "item" "m" 2
          (((5 : ℕ) : ℚ) / |(12 : ℚ) - (0 : ℚ)|)]) :=
  ⟨(reporter_throttled_once_per_interval "item" "m" 10 ⟨5, 2, 0⟩).1
      [(3, "a"), (5, "b")] (by simp; exact ⟨by decide, by decide⟩),
    (reporter_throttled_once_per_interval "item" "m" 10 ⟨5, 2, 0⟩).2.1
      12 (by simp; decide)⟩

/-- C4: on an `"ERROR"` outcome, one loop iteration performs exactly a
session restart followed by an immediate error notification tagged with
the item name, for every `now` and `logInterval` (so the notification is
unconditional — it bypasses the report-interval throttle); the restarted
session carries the same stored cookie (with a blank token cache); the
loop then proceeds to the next poll (`while True` continues with the
returned state). -/
theorem error_recovery_restarts_and_notifies (itemName message cookie : String)
    (logInterval now : ℚ) (s : WorkerState) :
    runStep itemName logInterval now message "ERROR" s =
      ({ s with checks := s.checks + 1 },
        [Action.restart,
          Action.notify
            ("ERROR " ++ message ++ " (while sniping " ++ itemName ++ ")")]) ∧
    restartSession cookie = { cookie := cookie, xsrfToken := "" } :=
  ⟨rfl, rfl⟩

/-- C10: `run` initializes `last_update = time.time() - log_interval`, so
for every positive interval the first `"WAIT"` outcome (at any `t1 ≥ t0`)
satisfies the throttle condition and emits a throttled report
immediately, with rate `0 / elapsed = 0` since `checks` is still `0`. -/
theorem first_wait_reports_immediately (itemName message : String)
    (logInterval t0 t1 : ℚ) (hpos : 0 < logInterval) (ht : t0 ≤ t1) :
    runStep itemName logInterval t1 message "WAIT" (initState t0 logInterval) =
      ({ checks := 1, sniped := 0, lastUpdate := t1 },
        [Action.notify (reportMessage itemName message 0 0)]) := by
  have h1 : t1 - (t0 - logInterval) = t1 - t0 + logInterval := by ring
  have habs : |t1 - (t0 - logInterval)| = t1 - t0 + logInterval := by
    rw [h1]
    exact abs_of_nonneg (by linarith)
  have hge : logInterval ≤ |t1 - (t0 - logInterval)| := by
    rw [habs]
    linarith
  unfold runStep reportTick initState
  rw [if_neg (by decide : ¬("WAIT" : String) = "ERROR"),
    if_neg (by decide : ¬("WAIT" : String) = "PURCHASED"),
    if_pos (rfl : ("WAIT" : String) = "WAIT")]
  simp only []
  rw [if_pos hge]
  simp

/-- Witness for C10 at `t0 = t1 = 100`, interval `10`. -/
theorem first_wait_reports_immediately_witness :
    runStep "item" 10 100 "m" "WAIT" (initState 100 10) =
      ({ checks := 1, sniped := 0, lastUpdate := 100 },
        [Action.notify (reportMessage "item" "m" 0 0)]) :=
  first_wait_reports_immediately "item" "m" 10 100 100 (by decide)
    (le_refl 100)

theorem flatten_range_chunks {α : Type} (s : Nat) :
    ∀ (k : Nat) (l : List α),
      ((List.range k).map (fun i => ((l.drop (i * s)).take s))).flatten =
        l.take (k * s) := by
  intro k
  induction k with
  | zero => intro l; simp
  | succ k ih =>
      intro l
      rw [List.range_succ_eq_map, List.map_cons, List.map_map,
        List.flatten_cons]
      have hmap : (List.range k).map
            ((fun i => ((l.drop (i * s)).take s)) ∘ Nat.succ) =
          (List.range k).map (fun i => (((l.drop s).drop (i * s)).take s)) := by
        apply List.map_congr_left
        intro i _
        simp only [Function.comp_apply, List.drop_drop]
        have h : Nat.succ i * s = s + i * s := by rw [Nat.succ_mul, Nat.add_comm]
        rw [h]
      rw [hmap, ih (l.drop s)]
      rw [Nat.zero_mul, List.drop_zero, ← List.take_add]
      congr 1
      ring

theorem ceil_div_mul_ge (n s : Nat) (hs : 0 < s) :
    n ≤ ((n + s - 1) / s) * s := by
  have h1 := Nat.div_add_mod (n + s - 1) s
  have h2 : (n + s - 1) % s < s := Nat.mod_lt _ hs
  have h3 : ((n + s - 1) / s) * s = s * ((n + s - 1) / s) := Nat.mul_comm _ _
  omega

theorem range_take_one {α : Type} :
    ∀ l : List α,
      (List.range l.length).map (fun i => ((l.drop i).take 1)) =
        l.map (fun a => [a])
  | [] => rfl
  | a :: l => by
      rw [List.length_cons, List.range_succ_eq_map, List.map_cons,
        List.map_map, List.map_cons]
      congr 1
      exact range_take_one l

theorem mainChunks_eq_slices {α : Type} (items : List α) (flag : Bool)
    (p np s : Nat) (hnp : (if flag then items.length else p) = np)
    (h0 : np ≠ 0) (hs : items.length / np = s) (hsz : s ≠ 0) :
    mainChunks items flag p =
      some ((pyRangeStep items.length s).map
        (fun x => ((items.drop x).take s))) := by
  unfold mainChunks
  simp only [hnp, hs]
  rw [if_neg h0, if_neg hsz]

/-- C7 counterexample: five items with `max_processes` unset and
`processes = 2` give `process_size = 2` and THREE execution units
`[[0,1],[2,3],[4]]`, not the configured two — and not an even partition
(sizes 2, 2, 1 rather than 3, 2). -/
theorem dispatcher_unit_count_cex :
    mainChunks [0, 1, 2, 3, 4] false 2 = some [[0, 1], [2, 3], [4]] ∧
    ([[0, 1], [2, 3], [4]] : List (List Nat)).length ≠ 2 := by decide

/-- C7 amended: whenever the dispatcher starts at all (it crashes with a
`ZeroDivisionError`/`ValueError` when the unit count is `0` or exceeds
the item count), it slices the item list into consecutive chunks of
`len(items) // num_processes` items (last chunk possibly shorter), so
every item is assigned to exactly one unit — but the number of units is
the ceiling of `n / (n // p)`, which equals the configured `p` when `p`
divides `n` and exceeds it otherwise; with the maximum-parallelism flag
set (and at least one item) there is exactly one singleton unit per
item. -/
theorem dispatcher_partition (p : Nat) {α : Type} (items : List α) :
    (∀ flag cs, mainChunks items flag p = some cs → cs.flatten = items) ∧
    (items ≠ [] → mainChunks items true p =
      some (items.map (fun a => [a]))) ∧
    (0 < p → p ∣ items.length → 0 < items.length →
      ∃ cs, mainChunks items false p = some cs ∧ cs.length = p) := by
  refine ⟨?_, ?_, ?_⟩
  · intro flag cs hcs
    unfold mainChunks at hcs
    set np := if flag then items.length else p with hnp
    by_cases h0 : np = 0
    · rw [if_pos h0] at hcs; exact absurd hcs (by simp)
    · rw [if_neg h0] at hcs
      by_cases hsz : items.length / np = 0
      · rw [if_pos hsz] at hcs; exact absurd hcs (by simp)
      · rw [if_neg hsz] at hcs
        simp only [Option.some.injEq] at hcs
        subst hcs
        unfold pyRangeStep
        rw [List.map_map]
        have hcomp : (fun x => ((items.drop x).take (items.length / np))) ∘
              (fun i => i * (items.length / np)) =
            fun i => ((items.drop (i * (items.length / np))).take
              (items.length / np)) := rfl
        rw [hcomp, flatten_range_chunks]
        apply List.take_of_length_le
        exact ceil_div_mul_ge items.length (items.length / np)
          (Nat.pos_of_ne_zero hsz)
  · intro hne
    have hlen : 0 < items.length := List.length_pos.mpr hne
    rw [mainChunks_eq_slices items true p items.length 1 rfl (by omega)
      (Nat.div_self hlen) (by omega)]
    unfold pyRangeStep
    rw [Nat.add_sub_cancel, Nat.div_one, List.map_map]
    have hcomp : ∀ i ∈ List.range items.length,
        ((fun x => ((items.drop x).take 1)) ∘ (fun i => i * 1)) i =
        (fun i => ((items.drop i).take 1)) i := by
      intro i _
      simp
    rw [List.map_congr_left hcomp, range_take_one]
  · intro hp hdvd hlen
    have hsz : 0 < items.length / p :=
      Nat.div_pos (Nat.le_of_dvd hlen hdvd) hp
    rw [mainChunks_eq_slices items false p p (items.length / p) rfl
      (by omega) rfl (by omega)]
    refine ⟨_, rfl, ?_⟩
    rw [List.length_map]
    unfold pyRangeStep
    rw [List.length_map, List.length_range]
    have hn : items.length / p * p = items.length := Nat.div_mul_cancel hdvd
    set s := items.length / p with hs
    have harith : items.length + s - 1 = (s - 1) + p * s := by
      have hc : p * s = s * p := Nat.mul_comm _ _
      omega
    rw [harith, Nat.add_mul_div_right _ _ hsz, Nat.div_eq_of_lt (by omega)]
    omega

/-- Witness for C7 amended at four items and two configured units
(`2 ∣ 4`, so here the unit count does come out as configured). -/
theorem dispatcher_partition_witness :
    (([[0, 1], [2, 3]] : List (List Nat)).flatten = [0, 1, 2, 3]) ∧
    (mainChunks [0, 1, 2, 3] true 2 = some [[0], [1], [2], [3]]) ∧
    (∃ cs, mainChunks ([0, 1, 2, 3] : List Nat) false 2 = some cs ∧
      cs.length = 2) :=
  ⟨(dispatcher_partition 2 [0, 1, 2, 3]).1 false [[0, 1], [2, 3]] (by decide),
    (dispatcher_partition 2 [0, 1, 2, 3]).2.1 (by decide),
    (dispatcher_partition 2 [0, 1, 2, 3]).2.2 (by decide) (by decide)
      (by decide)⟩

end MarketBot
